import Mathlib

/-!
Verification of the conversation orchestration engine of fueled-forward-api.

The definitions below are a shallow embedding of the TypeScript source:

* `src/chat/chat.service.ts` — the `AIChatService` class: context loading,
  staleness policy, prompt role mapping, the Claude completion call with
  retry/backoff, response-text extraction, and turn persistence
  (`saveUserMessage`, `saveAssistantMessage`, `updateConversationMetadata`).
* `src/chat/chat.gateway.ts` — the `ChatGateway` class: `handleSendMessage`
  with its authorization check, empty-message check, typing events and
  error propagation.

Time is modelled in integer milliseconds (JavaScript `Date.now()` values).
The database is modelled as an explicit state record (`Db`) holding the
conversation rows and message rows; Prisma operations become pure
functions on that state.  The Anthropic API is modelled by a script
function `Nat → CallOutcome` giving the outcome of each attempt
(1-indexed), so the retry loop becomes a pure recursive function.
-/

namespace FueledForward

/-- Token usage of one upstream call, `TokenUsage` in chat.service.ts. -/
structure TokenUsage where
  inputTokens : Nat
  outputTokens : Nat
  cacheCreationInputTokens : Nat
  cacheReadInputTokens : Nat
deriving DecidableEq, Repr

/-- The Prisma `ChatRole` enum (migration: `CREATE TYPE "ChatRole" AS ENUM ('USER', 'ASSISTANT')`). -/
inductive ChatRole where
  | USER
  | ASSISTANT
deriving DecidableEq, Repr

/-- The string Prisma hands back for a `ChatRole` value. -/
def ChatRole.toStr : ChatRole → String
  | .USER => "USER"
  | .ASSISTANT => "ASSISTANT"

/-- A row of the `Message` table, fields as in the Prisma schema and
`saveUserMessage` / `saveAssistantMessage`. -/
structure Message where
  id : Nat
  conversationId : String
  role : ChatRole
  content : String
  inputTokens : Nat
  outputTokens : Nat
  cachedTokens : Nat
  createdAt : Int
deriving DecidableEq, Repr

/-- A row of the `Conversation` table (the fields the chat service touches). -/
structure Conversation where
  id : String
  userId : String
  totalMessages : Nat
  totalTokensUsed : Nat
  lastMessageAt : Option Int
  clearedAt : Option Int
deriving DecidableEq, Repr

/-- The persistent store visible to the chat service: which users have a
profile row, the conversation rows, the message rows, and the id the next
inserted message will receive. -/
structure Db where
  usersWithProfile : List String
  conversations : List Conversation
  messages : List Message
  nextMsgId : Nat
deriving DecidableEq, Repr

/-! ### Context loading (`loadContext`, chat.service.ts lines 157-214)

The Prisma query
`findMany (where conversationId, createdAt gt clearedAt) (orderBy createdAt asc) (take 1000)`
is modelled as: filter the table, sort ascending by `createdAt`
(insertion sort, stable like the database order-by), take the first 1000. -/

/-- One step of insertion sort on `createdAt`, ascending. -/
def insertByTime (m : Message) : List Message → List Message
  | [] => [m]
  | x :: xs => if m.createdAt ≤ x.createdAt then m :: x :: xs else x :: insertByTime m xs

/-- Sort messages ascending by `createdAt` (the `orderBy createdAt asc`). -/
def sortByCreatedAt : List Message → List Message
  | [] => []
  | x :: xs => insertByTime x (sortByCreatedAt xs)

/-- The `where` clause of the message query in `loadContext`: rows of this
conversation, strictly after `clearedAt` when `clearedAt` is set. -/
def visibleMessages (msgs : List Message) (convId : String) (clearedAt : Option Int) :
    List Message :=
  msgs.filter fun m =>
    m.conversationId == convId &&
      match clearedAt with
      | none => true
      | some c => decide (c < m.createdAt)

/-- The message read of `loadContext` (lines 182-191): filter, order by
`createdAt` ascending, `take 1000`. -/
def loadHistory (msgs : List Message) (convId : String) (clearedAt : Option Int) :
    List Message :=
  (sortByCreatedAt (visibleMessages msgs convId clearedAt)).take 1000

/-- What the spec asks of the history read: the most recent 1000 visible
messages, returned in creation order.  Modelled from the spec sentence
"bounded to the most recent 1000 in creation order" for comparison with
`loadHistory`. -/
def mostRecentHistory (msgs : List Message) (convId : String) (clearedAt : Option Int) :
    List Message :=
  let sorted := sortByCreatedAt (visibleMessages msgs convId clearedAt)
  sorted.drop (sorted.length - 1000)

/-! ### Staleness policy (`shouldRefreshContext`, lines 248-255)

The source computes `(Date.now() - lastMessageAt.getTime()) / (1000*60*60)`
and compares it with the 8-hour window.  The division is modelled exactly
over `ℚ` (every value involved is an integer number of milliseconds, well
inside the range where JavaScript doubles are exact for the comparison). -/

/-- `this.contextRefreshWindowHours = 8` in the service constructor. -/
def contextRefreshWindowHours : Nat := 8

/-- `this.maxRetries = 3` in the service constructor. -/
def maxRetries : Nat := 3

/-- `shouldRefreshContext`: false when the context has no last-message
timestamp, otherwise true iff the elapsed hours reach the window. -/
def shouldRefreshContext (windowHours : Nat) (nowMs : Int) (lastMessageAt : Option Int) :
    Bool :=
  match lastMessageAt with
  | none => false
  | some t =>
      decide ((windowHours : ℚ) ≤ ((nowMs - t : Int) : ℚ) / (1000 * 60 * 60))

/-! ### Role mapping (`buildPrompt`, lines 275-286)

The source maps each history row with the string comparison
`msg.role === 'USER' ? 'user' : 'assistant'`. -/

/-- The role-mapping expression of `buildPrompt`, as the string function the
ternary actually is. -/
def mapRoleStr (role : String) : String :=
  if role == "USER" then "user" else "assistant"

/-- An entry of the `messages` array handed to the Anthropic API. -/
structure ApiMessage where
  role : String
  content : String
deriving DecidableEq, Repr

/-- One row of the conversation history inside a `ChatContext`. -/
structure HistoryEntry where
  role : ChatRole
  content : String
deriving DecidableEq, Repr

/-- The message-list part of `buildPrompt`: map every history row through
the role mapping, then append the new user message with role `user`. -/
def buildMessages (history : List HistoryEntry) (userMessage : String) : List ApiMessage :=
  history.map (fun m => ⟨mapRoleStr m.role.toStr, m.content⟩) ++ [⟨"user", userMessage⟩]

/-! ### Response text extraction (lines 465-469)

`response.content.filter(type === text).map(block.text).join('\n')`. -/

/-- A block of the upstream reply content.  The source only ever looks at
whether `block.type === 'text'` and at `block.text`, so every non-text
variant is collapsed into `other` with its type tag. -/
inductive ContentBlock where
  | text (s : String)
  | other (kind : String)
deriving DecidableEq, Repr

/-- The filter predicate `block.type === 'text'`. -/
def ContentBlock.isText : ContentBlock → Bool
  | .text _ => true
  | .other _ => false

/-- The `block.text` field access (only reached on text blocks). -/
def ContentBlock.textOf : ContentBlock → String
  | .text s => s
  | .other _ => ""

/-- The extraction pipeline of `callClaudeWithRetry`:
`content.filter(isText).map(textOf).join('\n')`. -/
def extractText (content : List ContentBlock) : String :=
  String.intercalate "\n" ((content.filter ContentBlock.isText).map ContentBlock.textOf)

/-- The textual segments of a reply, in order: a direct recursive reading of
the words "all textual segments of the reply, non-textual ignored". -/
def textSegments : List ContentBlock → List String
  | [] => []
  | .text s :: rest => s :: textSegments rest
  | .other _ :: rest => textSegments rest

/-! ### The completion call with retry (`callClaudeWithRetry`, lines 445-510)

Each attempt of the `for` loop either succeeds with a reply or throws an
error carrying an optional HTTP status.  The loop re-raises immediately on
status 400/401/403, otherwise sleeps `2^attempt * 1000` ms when attempts
remain, and re-raises the last error once all attempts are used. -/

/-- An error thrown by `anthropic.messages.create`: an optional HTTP status
(network-level failures carry none) and a message. -/
structure ApiError where
  status : Option Nat
  msg : String
deriving DecidableEq, Repr

/-- Outcome of one call of `anthropic.messages.create`: the reply content
blocks and usage, or a thrown error. -/
inductive CallOutcome where
  | success (content : List ContentBlock) (usage : TokenUsage)
  | failure (status : Option Nat) (msg : String)
deriving DecidableEq, Repr

/-- The non-retryable statuses of lines 493-497:
`status === 400 || status === 401 || status === 403`. -/
def isTerminalStatus (status : Option Nat) : Bool :=
  status == some 400 || status == some 401 || status == some 403

/-- What one run of the retry loop did: how many upstream calls were made,
the backoff sleeps in milliseconds between them, and the final outcome. -/
structure RetryTrace where
  calls : Nat
  waits : List Nat
  result : Except ApiError (String × TokenUsage)
deriving Repr

/-- The retry loop body, recursing on the number of attempts left.
`script n` is the outcome of the n-th upstream call (1-indexed `attempt`).
With one attempt left, any failure is re-raised (for a transient failure
this is the `throw lastError` after the loop; the error thrown is the
last one either way).  Otherwise a terminal failure is re-raised at once
and a transient one sleeps `2^attempt * 1000` ms and retries. -/
def retryLoop (script : Nat → CallOutcome) : (attempt : Nat) → (remaining : Nat) → RetryTrace
  | _, 0 => ⟨0, [], .error ⟨none, "no attempts"⟩⟩
  | attempt, 1 =>
      match script attempt with
      | .success content usage => ⟨1, [], .ok (extractText content, usage)⟩
      | .failure st m => ⟨1, [], .error ⟨st, m⟩⟩
  | attempt, remaining + 2 =>
      match script attempt with
      | .success content usage => ⟨1, [], .ok (extractText content, usage)⟩
      | .failure st m =>
          if isTerminalStatus st then ⟨1, [], .error ⟨st, m⟩⟩
          else
            let rest := retryLoop script (attempt + 1) (remaining + 1)
            ⟨rest.calls + 1, 2 ^ attempt * 1000 :: rest.waits, rest.result⟩

/-- `callClaudeWithRetry`: run the loop from attempt 1 with `maxRetries`
attempts available. -/
def callClaudeWithRetry (maxR : Nat) (script : Nat → CallOutcome) : RetryTrace :=
  retryLoop script 1 maxR

/-! ### Turn persistence (lines 515-570) -/

/-- `saveUserMessage`: insert a `USER` row carrying `inputTokens`,
`outputTokens` and `cacheReadInputTokens` of the turn's usage; `createdAt`
is the database default, the current time. -/
def saveUserMessage (db : Db) (conversationId : String) (content : String)
    (tokens : TokenUsage) (nowMs : Int) : Message × Db :=
  let msg : Message :=
    ⟨db.nextMsgId, conversationId, .USER, content,
      tokens.inputTokens, tokens.outputTokens, tokens.cacheReadInputTokens, nowMs⟩
  (msg, { db with messages := db.messages ++ [msg], nextMsgId := db.nextMsgId + 1 })

/-- `saveAssistantMessage`: insert an `ASSISTANT` row carrying the same
token breakdown. -/
def saveAssistantMessage (db : Db) (conversationId : String) (content : String)
    (tokens : TokenUsage) (nowMs : Int) : Message × Db :=
  let msg : Message :=
    ⟨db.nextMsgId, conversationId, .ASSISTANT, content,
      tokens.inputTokens, tokens.outputTokens, tokens.cacheReadInputTokens, nowMs⟩
  (msg, { db with messages := db.messages ++ [msg], nextMsgId := db.nextMsgId + 1 })

/-- `updateConversationMetadata`: increment the running token total by
`inputTokens + outputTokens`, increment the message count by 2, set
`lastMessageAt` to the current time. -/
def updateConversationMetadata (db : Db) (conversationId : String)
    (tokens : TokenUsage) (nowMs : Int) : Db :=
  { db with
    conversations := db.conversations.map fun c =>
      if c.id = conversationId then
        { c with
          totalTokensUsed := c.totalTokensUsed + (tokens.inputTokens + tokens.outputTokens),
          totalMessages := c.totalMessages + 2,
          lastMessageAt := some nowMs }
      else c }

/-! ### The orchestration flow (`handleUserMessage`, lines 84-152) -/

/-- What `handleUserMessage` resolves with on success. -/
structure HandleResult where
  assistantMessage : String
  messageId : Nat
  tokens : TokenUsage
  contextRefreshed : Bool
deriving Repr

/-- The conversation lookup / lazy creation of `loadContext`
(lines 171-179). -/
def getOrCreateConversation (db : Db) (userId : String) : Conversation × Db :=
  match db.conversations.find? (fun c => c.userId == userId) with
  | some c => (c, db)
  | none =>
      let c : Conversation := ⟨"conv-" ++ userId, userId, 0, 0, none, none⟩
      (c, { db with conversations := db.conversations ++ [c] })

/-- `handleUserMessage`: load the context (failing when the user has no
profile row), run the completion call with retries, and only on success
save the user message, then the assistant message, then update the
conversation metadata.  A thrown completion error is logged and re-raised,
leaving the store as the context load left it. -/
def handleUserMessage (db : Db) (userId : String) (message : String) (nowMs : Int)
    (script : Nat → CallOutcome) : Except ApiError HandleResult × Db :=
  if userId ∈ db.usersWithProfile then
    let (conv, db1) := getOrCreateConversation db userId
    let history := loadHistory db1.messages conv.id conv.clearedAt
    let contextRefreshed :=
      shouldRefreshContext contextRefreshWindowHours nowMs conv.lastMessageAt
    let _prompt := buildMessages (history.map fun m => ⟨m.role, m.content⟩) message
    match (callClaudeWithRetry maxRetries script).result with
    | .error e => (.error e, db1)
    | .ok (response, tokens) =>
        let (_userMsg, db2) := saveUserMessage db1 conv.id message tokens nowMs
        let (asstMsg, db3) := saveAssistantMessage db2 conv.id response tokens nowMs
        let db4 := updateConversationMetadata db3 conv.id tokens nowMs
        (.ok ⟨response, asstMsg.id, tokens, contextRefreshed⟩, db4)
  else
    (.error ⟨none, "User or profile not found for user " ++ userId⟩, db)

/-! ### The realtime gateway (`handleSendMessage`, chat.gateway.ts lines 94-156) -/

/-- The payload of a `sendMessage` event. -/
structure SendMessageDto where
  userId : String
  message : String
deriving DecidableEq, Repr

/-- An event the gateway emits to the sender's per-user group.
`typing true` is the typing indicator, `typing false` the typing-stopped
event; `messageResponse` carries the assistant reply. -/
inductive Event where
  | typing (flag : Bool)
  | messageResponse (content : String) (messageId : Nat) (tokens : TokenUsage)
      (contextRefreshed : Bool)
deriving Repr

/-- Everything observable about one `handleSendMessage` invocation: whether
the AI pipeline was invoked, the events emitted to the user's group in
order, the resulting store, and the acknowledgment or the `WsException`
message delivered to the caller. -/
structure GatewayOutcome where
  pipelineCalled : Bool
  emitted : List Event
  db : Db
  result : Except String Unit

/-- `handleSendMessage`.  The declared `userId` must equal the connection's
authenticated identity (`client.data.userId`) and the message must not be
empty after trimming — the check `!message || message.trim().length === 0`
holds exactly when every character is whitespace, which is how it is
embedded here — else a `WsException` is thrown before anything else
happens; the outer catch then emits typing-stopped and re-raises.  On
acceptance: emit typing, run the pipeline; the `finally` emits
typing-stopped on success and failure alike, and a pipeline failure also
reaches the outer catch, which emits typing-stopped once more and
re-raises the error to the caller. -/
def handleSendMessage (clientUserId : String) (data : SendMessageDto) (db : Db)
    (nowMs : Int) (script : Nat → CallOutcome) : GatewayOutcome :=
  if data.userId ≠ clientUserId then
    { pipelineCalled := false, emitted := [.typing false], db := db,
      result := .error "Unauthorized: userId mismatch" }
  else if data.message.toList.all Char.isWhitespace then
    { pipelineCalled := false, emitted := [.typing false], db := db,
      result := .error "Message cannot be empty" }
  else
    match handleUserMessage db data.userId data.message nowMs script with
    | (.ok r, db2) =>
        { pipelineCalled := true,
          emitted := [.typing true,
            .messageResponse r.assistantMessage r.messageId r.tokens r.contextRefreshed,
            .typing false],
          db := db2, result := .ok () }
    | (.error e, db2) =>
        { pipelineCalled := true,
          emitted := [.typing true, .typing false, .typing false],
          db := db2, result := .error e.msg }

/-! ### Concrete test fixtures used by the witness theorems -/

/-- A small concrete usage record. -/
def usageA : TokenUsage := ⟨120, 35, 0, 80⟩

/-- A script whose first two calls fail transiently (a network error with no
status, then a 529 overload) and whose third call succeeds. -/
def scriptTTS : Nat → CallOutcome := fun n =>
  if n = 1 then .failure none "socket hang up"
  else if n = 2 then .failure (some 529) "overloaded"
  else .success [.text "ok"] usageA

/-- A script whose every call fails with an authentication error. -/
def scriptAuthFail : Nat → CallOutcome := fun _ =>
  .failure (some 401) "invalid x-api-key"

/-- A script whose every call succeeds. -/
def scriptOk : Nat → CallOutcome := fun _ => .success [.text "hello there"] usageA

/-- A script whose every call fails transiently. -/
def scriptDown : Nat → CallOutcome := fun n => .failure (some 500) (toString n)

/-- A one-user, one-conversation store: user "u1" has a profile and a
conversation "c1" with two committed turns behind it. -/
def db0 : Db :=
  { usersWithProfile := ["u1"],
    conversations := [⟨"c1", "u1", 4, 900, some 1000, none⟩],
    messages :=
      [⟨0, "c1", .USER, "hi", 100, 20, 0, 500⟩,
       ⟨1, "c1", .ASSISTANT, "hey", 100, 20, 0, 500⟩,
       ⟨2, "c1", .USER, "you there", 150, 30, 0, 1000⟩,
       ⟨3, "c1", .ASSISTANT, "yes", 150, 30, 0, 1000⟩],
    nextMsgId := 4 }

/-- A message row used to build a long conversation: row `i` carries id `i`
and creation time `i` milliseconds. -/
def mkMsg (i : Nat) : Message := ⟨i, "c1", .USER, "m", 0, 0, 0, (i : Int)⟩

/-- 1001 message rows of conversation "c1", created at 0,1,...,1000 ms. -/
def manyMsgs : List Message := (List.range 1001).map mkMsg

/-! ## Helper lemmas -/

/-- Unfolding of the retry loop with exactly one attempt left. -/
theorem retryLoop_one_eq (script : Nat → CallOutcome) (a : Nat) :
    retryLoop script a 1 =
      (match script a with
       | .success content usage => ⟨1, [], .ok (extractText content, usage)⟩
       | .failure st m => ⟨1, [], .error ⟨st, m⟩⟩) := rfl

/-- Unfolding of the retry loop with at least two attempts left. -/
theorem retryLoop_two_eq (script : Nat → CallOutcome) (a r : Nat) :
    retryLoop script a (r + 2) =
      (match script a with
       | .success content usage => ⟨1, [], .ok (extractText content, usage)⟩
       | .failure st m =>
           if isTerminalStatus st then ⟨1, [], .error ⟨st, m⟩⟩
           else
             let rest := retryLoop script (a + 1) (r + 1)
             ⟨rest.calls + 1, 2 ^ a * 1000 :: rest.waits, rest.result⟩) := rfl

/-- The loop never makes more calls than it has attempts. -/
theorem retryLoop_calls_le (script : Nat → CallOutcome) :
    ∀ r a, (retryLoop script a r).calls ≤ r := by
  intro r
  induction r with
  | zero => intro a; simp [retryLoop]
  | succ n ih =>
    intro a
    rcases n with _ | m
    · rw [retryLoop_one_eq]
      cases script a <;> simp
    · rw [retryLoop_two_eq]
      cases h : script a with
      | success c u => simp
      | failure st m' =>
        dsimp only
        by_cases ht : isTerminalStatus st
        · simp [ht]
        · rw [if_neg ht]
          dsimp only
          have := ih (a + 1)
          omega

/-! ## Claim C3 — retry bound, backoff schedule, retry-then-success, exhaustion -/

/-- C3: the completion call makes at most the configured 3 attempts; with 2
consecutive transient failures followed by a success, exactly 3 upstream
calls occur, the backoff sleeps are 2 s then 4 s (base 2 seconds,
doubling), and the returned text and usage are the successful call's; with
3 transient failures the retry budget is exhausted after exactly 3 calls
and the last failure is re-raised. -/
theorem callClaudeWithRetry_spec :
    (∀ script : Nat → CallOutcome,
      (callClaudeWithRetry maxRetries script).calls ≤ maxRetries) ∧
    (∀ (script : Nat → CallOutcome) (s1 : Option Nat) (m1 : String) (s2 : Option Nat)
        (m2 : String) (content : List ContentBlock) (usage : TokenUsage),
      script 1 = .failure s1 m1 → isTerminalStatus s1 = false →
      script 2 = .failure s2 m2 → isTerminalStatus s2 = false →
      script 3 = .success content usage →
      callClaudeWithRetry maxRetries script =
        ⟨3, [2000, 4000], .ok (extractText content, usage)⟩) ∧
    (∀ (script : Nat → CallOutcome) (s1 : Option Nat) (m1 : String) (s2 : Option Nat)
        (m2 : String) (s3 : Option Nat) (m3 : String),
      script 1 = .failure s1 m1 → isTerminalStatus s1 = false →
      script 2 = .failure s2 m2 → isTerminalStatus s2 = false →
      script 3 = .failure s3 m3 →
      callClaudeWithRetry maxRetries script = ⟨3, [2000, 4000], .error ⟨s3, m3⟩⟩) := by
  refine ⟨fun script => retryLoop_calls_le script maxRetries 1, ?_, ?_⟩
  · intro script s1 m1 s2 m2 content usage h1 ht1 h2 ht2 h3
    show retryLoop script 1 (1 + 2) = _
    rw [retryLoop_two_eq, h1]
    dsimp only
    rw [if_neg (by simp [ht1])]
    rw [show (1 + 1 : Nat) = 0 + 2 from rfl, retryLoop_two_eq, h2]
    dsimp only
    rw [if_neg (by simp [ht2])]
    rw [retryLoop_one_eq, h3]
    rfl
  · intro script s1 m1 s2 m2 s3 m3 h1 ht1 h2 ht2 h3
    show retryLoop script 1 (1 + 2) = _
    rw [retryLoop_two_eq, h1]
    dsimp only
    rw [if_neg (by simp [ht1])]
    rw [show (1 + 1 : Nat) = 0 + 2 from rfl, retryLoop_two_eq, h2]
    dsimp only
    rw [if_neg (by simp [ht2])]
    rw [retryLoop_one_eq, h3]
    rfl

/-- Witness for C3: the transient-transient-success script makes 3 calls,
sleeps 2 s then 4 s, and returns the third call's text and usage. -/
theorem callClaudeWithRetry_spec_witness :
    callClaudeWithRetry maxRetries scriptTTS =
      ⟨3, [2000, 4000], .ok (extractText [.text "ok"], usageA)⟩ :=
  callClaudeWithRetry_spec.2.1 scriptTTS none "socket hang up" (some 529) "overloaded"
    [.text "ok"] usageA rfl rfl rfl rfl rfl

/-! ## Claim C4 — terminal failures are re-raised without consuming a retry -/

/-- C4: a failure status is terminal exactly when it is 400 (malformed
request), 401 (authentication) or 403 (authorization), and a terminal
failure on the first call is re-raised at once: exactly 1 upstream call,
no backoff sleep. -/
theorem callClaudeWithRetry_terminal :
    (∀ st : Option Nat,
      isTerminalStatus st = true ↔ st = some 400 ∨ st = some 401 ∨ st = some 403) ∧
    (∀ (script : Nat → CallOutcome) (st : Option Nat) (m : String),
      isTerminalStatus st = true → script 1 = .failure st m →
      callClaudeWithRetry maxRetries script = ⟨1, [], .error ⟨st, m⟩⟩) := by
  constructor
  · intro st
    cases st <;> simp [isTerminalStatus, or_assoc]
  · intro script st m ht h1
    show retryLoop script 1 (1 + 2) = _
    rw [retryLoop_two_eq, h1]
    dsimp only
    rw [if_pos ht]

/-- Witness for C4: a 401 on the first call yields exactly one upstream
call, no sleeps, and the error itself. -/
theorem callClaudeWithRetry_terminal_witness :
    callClaudeWithRetry maxRetries scriptAuthFail =
      ⟨1, [], .error ⟨some 401, "invalid x-api-key"⟩⟩ :=
  callClaudeWithRetry_terminal.2 scriptAuthFail (some 401) "invalid x-api-key" rfl rfl

/-! ## Claim C5 — the staleness predicate and its boundary -/

/-- C5: `shouldRefreshContext` is false when the context has no last-message
timestamp; otherwise it is true exactly when the elapsed time reaches
`windowHours` hours (stated in milliseconds: `windowHours * 3600000 ≤ now - t`,
which is the exact meaning of "elapsed hours ≥ window"); at the default
8-hour window the boundary is included — exactly 8 hours is true, one
millisecond below is false. -/
theorem shouldRefreshContext_spec (w : Nat) (now t u : Int) :
    shouldRefreshContext w now none = false ∧
    (shouldRefreshContext w now (some t) = true ↔ (w : Int) * 3600000 ≤ now - t) ∧
    shouldRefreshContext contextRefreshWindowHours (u + 8 * 3600000) (some u) = true ∧
    shouldRefreshContext contextRefreshWindowHours (u + 8 * 3600000 - 1) (some u) = false := by
  have key : ∀ (w : Nat) (now t : Int),
      shouldRefreshContext w now (some t) = true ↔ (w : Int) * 3600000 ≤ now - t := by
    intro w now t
    rw [shouldRefreshContext]
    rw [decide_eq_true_eq]
    rw [le_div_iff₀ (by norm_num : (0:ℚ) < 1000 * 60 * 60)]
    constructor
    · intro h
      exact_mod_cast h
    · intro h
      exact_mod_cast h
  refine ⟨rfl, key w now t, ?_, ?_⟩
  · rw [key]
    simp only [contextRefreshWindowHours]
    omega
  · rw [← Bool.not_eq_true]
    intro hcontra
    rw [key] at hcontra
    simp only [contextRefreshWindowHours] at hcontra
    omega

/-- Witness for C5 at concrete instants: with the last message at time 0,
the default 8-hour window fires at exactly 28800000 ms and not at
28799999 ms. -/
theorem shouldRefreshContext_spec_witness :
    shouldRefreshContext contextRefreshWindowHours ((0 : Int) + 8 * 3600000) (some 0) = true ∧
    shouldRefreshContext contextRefreshWindowHours ((0 : Int) + 8 * 3600000 - 1) (some 0) = false :=
  ⟨(shouldRefreshContext_spec 8 0 0 0).2.2.1, (shouldRefreshContext_spec 8 0 0 0).2.2.2⟩

/-! ## Claim C8 — role mapping -/

/-- C8 counterexample: the role-mapping expression is not idempotent as the
string function it is — an already-mapped "user" falls into the else
branch and comes out "assistant". -/
theorem mapRoleStr_not_idempotent :
    mapRoleStr (mapRoleStr "USER") ≠ mapRoleStr "USER" := by decide

/-- C8 amended: the role mapping is total and produces no third value —
USER maps to user, ASSISTANT maps to assistant, every output is user or
assistant (so every role in the list handed upstream is user or
assistant), and any input other than the string "USER" (hence any
would-be third role value in the data) is silently mapped to assistant
rather than rejected. -/
theorem mapRole_total_no_third :
    mapRoleStr "USER" = "user" ∧
    mapRoleStr "ASSISTANT" = "assistant" ∧
    (∀ r : ChatRole, mapRoleStr r.toStr = "user" ∨ mapRoleStr r.toStr = "assistant") ∧
    (∀ s : String, mapRoleStr s = "user" ∨ mapRoleStr s = "assistant") ∧
    (∀ s : String, s ≠ "USER" → mapRoleStr s = "assistant") ∧
    (∀ (history : List HistoryEntry) (userMessage : String),
      ∀ m ∈ buildMessages history userMessage, m.role = "user" ∨ m.role = "assistant") := by
  have total : ∀ s : String, mapRoleStr s = "user" ∨ mapRoleStr s = "assistant" := by
    intro s
    rw [mapRoleStr]
    by_cases h : s == "USER"
    · rw [if_pos h]; left; rfl
    · rw [if_neg h]; right; rfl
  refine ⟨rfl, rfl, fun r => total r.toStr, total, ?_, ?_⟩
  · intro s h
    rw [mapRoleStr, if_neg (by simpa using h)]
  · intro history userMessage m hm
    rw [buildMessages] at hm
    rcases List.mem_append.mp hm with h | h
    · rcases List.mem_map.mp h with ⟨x, _, hx⟩
      rw [← hx]
      exact total x.role.toStr
    · rcases List.mem_singleton.mp h with rfl
      left; rfl

/-- Witness for C8 amended: a non-"USER" role string maps to assistant, and
the single message of a one-entry history maps into the upstream
vocabulary. -/
theorem mapRole_total_no_third_witness :
    mapRoleStr "user" = "assistant" ∧
    ((⟨"user", "hello"⟩ : ApiMessage).role = "user" ∨
      (⟨"user", "hello"⟩ : ApiMessage).role = "assistant") :=
  ⟨mapRole_total_no_third.2.2.2.2.1 "user" (by decide),
   mapRole_total_no_third.2.2.2.2.2 [⟨.ASSISTANT, "hi"⟩] "hello" ⟨"user", "hello"⟩
     (by decide)⟩

/-! ## Claim C9 — response text extraction -/

/-- C9 counterexample: with two textual segments the extracted text is the
newline-joined "a\nb", not the plain concatenation "ab". -/
theorem extractText_not_plain_concat :
    extractText [.text "a", .text "b"] ≠ "a" ++ "b" := by decide

/-- C9 amended: the text returned by a successful call is the textual
segments of the reply, in order, joined with a newline separator, and
non-textual segments are ignored — removing any non-textual segment
leaves the extracted text unchanged. -/
theorem extractText_newline_joined :
    (∀ content : List ContentBlock,
      extractText content = String.intercalate "\n" (textSegments content)) ∧
    (∀ (xs ys : List ContentBlock) (kind : String),
      textSegments (xs ++ .other kind :: ys) = textSegments (xs ++ ys)) ∧
    extractText [.text "a", .text "b"] = "a" ++ "\n" ++ "b" := by
  have segs : ∀ content : List ContentBlock,
      (content.filter ContentBlock.isText).map ContentBlock.textOf = textSegments content := by
    intro content
    induction content with
    | nil => rfl
    | cons b rest ih =>
      cases b with
      | text s =>
        rw [textSegments]
        rw [List.filter_cons_of_pos (by rfl), List.map_cons, ih]
        rfl
      | other k =>
        rw [textSegments]
        rw [List.filter_cons_of_neg (by simp [ContentBlock.isText]), ih]
  have skip : ∀ (xs ys : List ContentBlock) (kind : String),
      textSegments (xs ++ .other kind :: ys) = textSegments (xs ++ ys) := by
    intro xs ys kind
    induction xs with
    | nil => rw [List.nil_append, List.nil_append, textSegments]
    | cons b rest ih =>
      cases b with
      | text s => rw [List.cons_append, List.cons_append, textSegments, textSegments, ih]
      | other k => rw [List.cons_append, List.cons_append, textSegments, textSegments, ih]
  exact ⟨fun content => by rw [extractText, segs], skip, by decide⟩

/-- Witness for C9 amended at a concrete reply with a non-textual block
between two textual ones. -/
theorem extractText_newline_joined_witness :
    extractText [.text "a", .other "tool_use", .text "b"]
      = String.intercalate "\n" (textSegments [.text "a", .other "tool_use", .text "b"]) :=
  extractText_newline_joined.1 [.text "a", .other "tool_use", .text "b"]

/-! ## Claim C2 — the history read of loadContext -/

/-- Inserting below a smaller-or-equal head keeps the list intact. -/
theorem insertByTime_cons_of_le {x y : Message} {ys : List Message}
    (h : x.createdAt ≤ y.createdAt) : insertByTime x (y :: ys) = x :: y :: ys := by
  rw [insertByTime, if_pos h]

/-- Sorting a list already ascending in `createdAt` leaves it unchanged. -/
theorem sortByCreatedAt_eq_self {l : List Message}
    (h : l.Pairwise fun a b => a.createdAt ≤ b.createdAt) : sortByCreatedAt l = l := by
  induction l with
  | nil => rfl
  | cons x xs ih =>
    rcases List.pairwise_cons.mp h with ⟨hx, hxs⟩
    rw [sortByCreatedAt, ih hxs]
    cases xs with
    | nil => rfl
    | cons y ys => exact insertByTime_cons_of_le (hx y (by simp))

/-- C2 fails on the code: on a conversation whose visible history holds 1001
messages (created at 0..1000 ms, `clearedAt` unset), the read of
`loadContext` — order ascending, take 1000 — keeps the oldest 1000 rows
and drops the newest message entirely, while the most recent 1000 in
creation order (the spec's words, `mostRecentHistory`) contain it.  This
contradicts the source's own comment "Limit to last 1000 messages". -/
theorem loadHistory_drops_newest :
    mkMsg 1000 ∈ visibleMessages manyMsgs "c1" none ∧
    (loadHistory manyMsgs "c1" none).length = 1000 ∧
    mkMsg 1000 ∉ loadHistory manyMsgs "c1" none ∧
    mkMsg 1000 ∈ mostRecentHistory manyMsgs "c1" none ∧
    loadHistory manyMsgs "c1" none ≠ mostRecentHistory manyMsgs "c1" none := by
  have hvis : visibleMessages manyMsgs "c1" none = manyMsgs := by
    rw [visibleMessages]
    apply List.filter_eq_self.mpr
    intro m hm
    rcases List.mem_map.mp hm with ⟨i, _, rfl⟩
    rfl
  have hpair : manyMsgs.Pairwise (fun a b => a.createdAt ≤ b.createdAt) := by
    rw [manyMsgs]
    apply List.Pairwise.map
    · intro a b hab
      show ((a : Nat) : Int) ≤ ((b : Nat) : Int)
      exact_mod_cast Nat.le_of_lt hab
    · exact List.pairwise_lt_range 1001
  have hsort : sortByCreatedAt manyMsgs = manyMsgs := sortByCreatedAt_eq_self hpair
  have hload : loadHistory manyMsgs "c1" none = (List.range 1000).map mkMsg := by
    rw [loadHistory, hvis, hsort, manyMsgs, ← List.map_take, List.take_range]
    norm_num
  have hlen : manyMsgs.length = 1001 := by
    rw [manyMsgs, List.length_map, List.length_range]
  have hnotmem : mkMsg 1000 ∉ loadHistory manyMsgs "c1" none := by
    rw [hload]
    intro hmem
    rcases List.mem_map.mp hmem with ⟨i, hi, hEq⟩
    have hid : i = 1000 := by
      have := congrArg Message.id hEq
      simpa [mkMsg] using this
    rw [List.mem_range] at hi
    omega
  have hmem2 : mkMsg 1000 ∈ mostRecentHistory manyMsgs "c1" none := by
    rw [mostRecentHistory]
    rw [hvis, hsort, hlen]
    rw [show (1001 - 1000 : Nat) = 1 from rfl]
    rw [manyMsgs, List.range_succ, List.map_append]
    rw [List.drop_append_of_le_length (by simp)]
    simp
  refine ⟨?_, ?_, hnotmem, hmem2, ?_⟩
  · rw [hvis, manyMsgs, List.range_succ, List.map_append]
    simp
  · rw [hload, List.length_map, List.length_range]
  · intro hEq
    exact hnotmem (hEq ▸ hmem2)

/-! ## Claim C1 — what a successful turn commits -/

/-- Finding a conversation by user in a row-wise-updated table: when the
update preserves the `userId` column, the lookup returns the updated row. -/
theorem find?_map_userId_preserving (convs : List Conversation) (userId : String)
    (conv : Conversation) (f : Conversation → Conversation)
    (hpres : ∀ c, (f c).userId = c.userId)
    (h : convs.find? (fun c => c.userId == userId) = some conv) :
    (convs.map f).find? (fun c => c.userId == userId) = some (f conv) := by
  rw [List.find?_map]
  have hcomp : ((fun c : Conversation => c.userId == userId) ∘ f) =
      (fun c : Conversation => c.userId == userId) := by
    funext c
    simp only [Function.comp_apply, hpres]
  rw [hcomp, h]
  rfl

/-- C1: on a successful completion, the turn commits exactly one `USER` row
first and one `ASSISTANT` row second for the conversation of the turn,
both carrying the token breakdown of the single usage record; the
conversation row then has its message count incremented by exactly 2, its
running token total incremented by exactly input+output tokens, and its
last-message-at set to the commit time. -/
theorem handleUserMessage_commit (db : Db) (userId message : String) (nowMs : Int)
    (script : Nat → CallOutcome) (conv : Conversation) (response : String)
    (tokens : TokenUsage)
    (hu : userId ∈ db.usersWithProfile)
    (hc : db.conversations.find? (fun c => c.userId == userId) = some conv)
    (hr : (callClaudeWithRetry maxRetries script).result = .ok (response, tokens)) :
    ∃ userMsg asstMsg : Message,
      (handleUserMessage db userId message nowMs script).2.messages
          = db.messages ++ [userMsg, asstMsg] ∧
      userMsg.role = .USER ∧
      asstMsg.role = .ASSISTANT ∧
      userMsg.conversationId = conv.id ∧
      asstMsg.conversationId = conv.id ∧
      userMsg.content = message ∧
      asstMsg.content = response ∧
      userMsg.inputTokens = tokens.inputTokens ∧
      asstMsg.inputTokens = tokens.inputTokens ∧
      userMsg.outputTokens = tokens.outputTokens ∧
      asstMsg.outputTokens = tokens.outputTokens ∧
      userMsg.cachedTokens = tokens.cacheReadInputTokens ∧
      asstMsg.cachedTokens = tokens.cacheReadInputTokens ∧
      userMsg.createdAt = nowMs ∧
      asstMsg.createdAt = nowMs ∧
      (handleUserMessage db userId message nowMs script).2.conversations.find?
          (fun c => c.userId == userId)
        = some { conv with
              totalMessages := conv.totalMessages + 2,
              totalTokensUsed :=
                conv.totalTokensUsed + (tokens.inputTokens + tokens.outputTokens),
              lastMessageAt := some nowMs } := by
  refine ⟨⟨db.nextMsgId, conv.id, .USER, message, tokens.inputTokens, tokens.outputTokens,
            tokens.cacheReadInputTokens, nowMs⟩,
          ⟨db.nextMsgId + 1, conv.id, .ASSISTANT, response, tokens.inputTokens,
            tokens.outputTokens, tokens.cacheReadInputTokens, nowMs⟩,
          ?_, rfl, rfl, rfl, rfl, rfl, rfl, rfl, rfl, rfl, rfl, rfl, rfl, rfl, rfl, ?_⟩
  · rw [handleUserMessage, if_pos hu, getOrCreateConversation, hc]
    dsimp only
    rw [hr]
    dsimp only [saveUserMessage, saveAssistantMessage, updateConversationMetadata]
    rw [List.append_assoc]
    rfl
  · rw [handleUserMessage, if_pos hu, getOrCreateConversation, hc]
    dsimp only
    rw [hr]
    dsimp only [saveUserMessage, saveAssistantMessage, updateConversationMetadata]
    rw [find?_map_userId_preserving db.conversations userId conv _ ?hpres hc]
    · rw [if_pos rfl]
    case hpres =>
      intro c
      by_cases hcid : c.id = conv.id
      · rw [if_pos hcid]
      · rw [if_neg hcid]

/-- Witness for C1: one concrete successful turn against the one-user store
commits the user row then the assistant row and bumps the conversation
counters by 2 messages and 155 tokens. -/
theorem handleUserMessage_commit_witness :
    ∃ userMsg asstMsg : Message,
      (handleUserMessage db0 "u1" "hey now" 5000 scriptOk).2.messages
          = db0.messages ++ [userMsg, asstMsg] ∧
      userMsg.role = .USER ∧
      asstMsg.role = .ASSISTANT ∧
      userMsg.conversationId = "c1" ∧
      asstMsg.conversationId = "c1" ∧
      userMsg.content = "hey now" ∧
      asstMsg.content = "hello there" ∧
      userMsg.inputTokens = usageA.inputTokens ∧
      asstMsg.inputTokens = usageA.inputTokens ∧
      userMsg.outputTokens = usageA.outputTokens ∧
      asstMsg.outputTokens = usageA.outputTokens ∧
      userMsg.cachedTokens = usageA.cacheReadInputTokens ∧
      asstMsg.cachedTokens = usageA.cacheReadInputTokens ∧
      userMsg.createdAt = 5000 ∧
      asstMsg.createdAt = 5000 ∧
      (handleUserMessage db0 "u1" "hey now" 5000 scriptOk).2.conversations.find?
          (fun c => c.userId == "u1")
        = some ⟨"c1", "u1", 4 + 2, 900 + (120 + 35), some 5000, none⟩ :=
  handleUserMessage_commit db0 "u1" "hey now" 5000 scriptOk
    ⟨"c1", "u1", 4, 900, some 1000, none⟩ "hello there" usageA
    (by decide) rfl rfl

/-! ## Claim C10 — a failed completion leaves the store untouched -/

/-- C10: when the completion call ultimately fails, no message row is
written for the turn whatever the prior state was, and when the user's
conversation already exists the store comes back entirely unchanged with
the failure re-raised — both message writes and the metadata update sit
strictly after the successful completion. -/
theorem handleUserMessage_failure_no_writes (db : Db) (userId message : String)
    (nowMs : Int) (script : Nat → CallOutcome) (e : ApiError)
    (hr : (callClaudeWithRetry maxRetries script).result = .error e) :
    (handleUserMessage db userId message nowMs script).2.messages = db.messages ∧
    (∀ conv, db.conversations.find? (fun c => c.userId == userId) = some conv →
      userId ∈ db.usersWithProfile →
      handleUserMessage db userId message nowMs script = (.error e, db)) := by
  constructor
  · rw [handleUserMessage]
    by_cases hu : userId ∈ db.usersWithProfile
    · rw [if_pos hu]
      rw [getOrCreateConversation]
      cases hc : db.conversations.find? (fun c => c.userId == userId) with
      | some conv =>
        dsimp only
        rw [hr]
      | none =>
        dsimp only
        rw [hr]
    · rw [if_neg hu]
  · intro conv hc hu
    rw [handleUserMessage, if_pos hu, getOrCreateConversation, hc]
    dsimp only
    rw [hr]

/-- Witness for C10: with every upstream call failing transiently, the
concrete store is returned unchanged together with the third failure. -/
theorem handleUserMessage_failure_no_writes_witness :
    (handleUserMessage db0 "u1" "hey now" 5000 scriptDown).2.messages = db0.messages ∧
    handleUserMessage db0 "u1" "hey now" 5000 scriptDown =
      (.error ⟨some 500, "3"⟩, db0) :=
  ⟨(handleUserMessage_failure_no_writes db0 "u1" "hey now" 5000 scriptDown
      ⟨some 500, "3"⟩ rfl).1,
   (handleUserMessage_failure_no_writes db0 "u1" "hey now" 5000 scriptDown
      ⟨some 500, "3"⟩ rfl).2 ⟨"c1", "u1", 4, 900, some 1000, none⟩ rfl (by decide)⟩

/-! ## Claim C6 — an identity mismatch is rejected before anything happens -/

/-- C6: a `sendMessage` event whose declared `userId` differs from the
connection's authenticated identity is rejected as unauthorized with the
`WsException` message delivered to the caller, without invoking the
completion pipeline and without touching the store. -/
theorem handleSendMessage_unauthorized (clientUserId : String) (data : SendMessageDto)
    (db : Db) (nowMs : Int) (script : Nat → CallOutcome)
    (h : data.userId ≠ clientUserId) :
    (handleSendMessage clientUserId data db nowMs script).pipelineCalled = false ∧
    (handleSendMessage clientUserId data db nowMs script).db = db ∧
    (handleSendMessage clientUserId data db nowMs script).result
        = .error "Unauthorized: userId mismatch" := by
  rw [handleSendMessage, if_pos h]
  exact ⟨rfl, rfl, rfl⟩

/-- Witness for C6: a spoofed sender id against the concrete store is
rejected, the pipeline never runs, and the store is untouched. -/
theorem handleSendMessage_unauthorized_witness :
    (handleSendMessage "u1" ⟨"u2", "hi"⟩ db0 5000 scriptOk).pipelineCalled = false ∧
    (handleSendMessage "u1" ⟨"u2", "hi"⟩ db0 5000 scriptOk).db = db0 ∧
    (handleSendMessage "u1" ⟨"u2", "hi"⟩ db0 5000 scriptOk).result
        = .error "Unauthorized: userId mismatch" :=
  handleSendMessage_unauthorized "u1" ⟨"u2", "hi"⟩ db0 5000 scriptOk (by decide)

/-! ## Claim C7 — typing-stopped is always emitted for accepted events -/

/-- C7: for every accepted `sendMessage` event (identity matches, message
not blank), the typing-stopped event is emitted to the sender's group
after the turn — it is among the emitted events and is the last of them —
on the success path and the failure path alike, whatever the pipeline
outcome. -/
theorem handleSendMessage_typing_stopped (clientUserId : String)
    (data : SendMessageDto) (db : Db) (nowMs : Int) (script : Nat → CallOutcome)
    (hid : data.userId = clientUserId)
    (hmsg : data.message.toList.all Char.isWhitespace = false) :
    Event.typing false ∈ (handleSendMessage clientUserId data db nowMs script).emitted ∧
    (handleSendMessage clientUserId data db nowMs script).emitted.getLast?
        = some (.typing false) := by
  rw [handleSendMessage, if_neg (by simp [hid]),
    if_neg (fun hcontra => by rw [hmsg] at hcontra; exact Bool.false_ne_true hcontra)]
  cases hp : handleUserMessage db data.userId data.message nowMs script with
  | mk res db2 =>
    cases res with
    | ok r => exact ⟨by simp, rfl⟩
    | error e => exact ⟨by simp, rfl⟩

/-- Witness for C7: on the success path and on the all-retries-failed path
of one concrete accepted event, typing-stopped is the last emitted
event. -/
theorem handleSendMessage_typing_stopped_witness :
    (Event.typing false ∈ (handleSendMessage "u1" ⟨"u1", "hi"⟩ db0 5000 scriptOk).emitted ∧
      (handleSendMessage "u1" ⟨"u1", "hi"⟩ db0 5000 scriptOk).emitted.getLast?
          = some (.typing false)) ∧
    (Event.typing false ∈ (handleSendMessage "u1" ⟨"u1", "hi"⟩ db0 5000 scriptDown).emitted ∧
      (handleSendMessage "u1" ⟨"u1", "hi"⟩ db0 5000 scriptDown).emitted.getLast?
          = some (.typing false)) :=
  ⟨handleSendMessage_typing_stopped "u1" ⟨"u1", "hi"⟩ db0 5000 scriptOk rfl (by decide),
   handleSendMessage_typing_stopped "u1" ⟨"u1", "hi"⟩ db0 5000 scriptDown rfl (by decide)⟩

end FueledForward
